import Mathlib

/-!
Verification of the Help2Earn verification-and-reward pipeline.

Shallow embedding of the backend's core business logic:
  - `check_fraud` models `skills/anti_fraud/skill.py::check_fraud`
    (both the `MOCK_DATABASE` branch and the PostGIS-query branch; the
    query `ORDER BY distance ASC LIMIT 1` is modelled by `findNearest`,
    with the geographic distance function an explicit parameter).
  - `check_user_submission_rate` models the rate limiter in the same file.
  - `process_upload` models `agent/help2earn_agent.py::Help2EarnAgent.process_upload`,
    with every external call's outcome (vision, duplicate index, repository
    create/update, token payment, ledger write) an explicit input in `Env`,
    and the database state carried in `World`.
  - `send_reward` models `skills/blockchain/skill.py::send_reward`.

Coordinates are exact integers (scaled fixed-point stand-ins for the
source floats); timestamps are integers in seconds.  Geographic distance
is an explicit function parameter throughout, so no rounding behaviour of
the source floats is baked into any theorem.
-/

namespace Help2Earn

/-- Classification result returned by the vision skill
(`VisionAnalysisResult` in `skills/vision/skill.py`).  The pipeline reads
only `is_valid`, `facility_type` and `condition`; the remaining payload
fields (`confidence`, `details`) are opaque to the pipeline and the whole
value is what gets stored verbatim as a facility's classification payload
(the source stores its JSON serialization). -/
structure VisionResult where
  is_valid : Bool
  facility_type : String
  condition : Option String
  deriving Repr, DecidableEq

/-- A row of the `facilities` table. -/
structure Facility where
  fid : Nat
  ftype : String
  lat : ℤ
  lng : ℤ
  imageUrl : String
  aiAnalysis : VisionResult
  contributor : String
  createdAt : ℤ
  updatedAt : ℤ
  deriving Repr, DecidableEq

/-- A row of the `rewards` table.  `txHash = none` models a SQL NULL
transaction hash. -/
structure Reward where
  rid : Nat
  wallet : String
  facilityId : Nat
  amount : ℤ
  txHash : Option String
  createdAt : ℤ
  deriving Repr, DecidableEq

/-- `FraudCheckResult.to_dict` from `skills/anti_fraud/skill.py`. -/
structure FraudCheckResult where
  is_fraud : Bool
  reward_amount : ℤ
  reason : String
  existing_facility_id : Option Nat
  deriving Repr, DecidableEq

-- Anti-fraud configuration constants from `skills/anti_fraud/skill.py`.
def DUPLICATE_RADIUS_METERS : ℤ := 50
def DUPLICATE_WINDOW_DAYS : ℤ := 15
def NEW_FACILITY_REWARD : ℤ := 50
def UPDATE_FACILITY_REWARD : ℤ := 25

/-- Whole days elapsed between `updatedAt` and `now` (seconds), as computed
by both `EXTRACT(DAY FROM NOW() - updated_at)` and Python's
`(datetime.now() - updated_at).days`. -/
def daysSince (now updatedAt : ℤ) : ℤ :=
  (now - updatedAt) / 86400

/-- Combine the head of a row list with the best row of its tail, keeping
whichever is nearer (the earlier one on ties). -/
def selectStep (d : Facility → ℤ) (f : Facility) : Option Facility → Option Facility
  | none => some f
  | some g => if d g < d f then some g else some f

/-- The SQL `ORDER BY distance ASC LIMIT 1` over a list of rows: the element
minimizing the key `d` (first such element on ties). -/
def selectNearest (d : Facility → ℤ) : List Facility → Option Facility
  | [] => none
  | f :: fs => selectStep d f (selectNearest d fs)

/-- Candidate filter of the duplicate-index query: same facility type and
within the 50-meter radius (`ST_DWithin` is inclusive). -/
def isCandidate (dist : ℤ → ℤ → ℤ → ℤ → ℤ) (lat lng : ℤ) (t : String)
    (f : Facility) : Bool :=
  decide (f.ftype = t) && decide (dist lat lng f.lat f.lng ≤ DUPLICATE_RADIUS_METERS)

/-- The duplicate-index query of `check_fraud`: nearest facility of type `t`
within `DUPLICATE_RADIUS_METERS` of `(lat, lng)`.  `dist` is the geographic
distance function (`ST_Distance` on geography), a parameter of the model. -/
def findNearest (dist : ℤ → ℤ → ℤ → ℤ → ℤ) (fs : List Facility)
    (lat lng : ℤ) (t : String) : Option Facility :=
  selectNearest (fun f => dist lat lng f.lat f.lng) (fs.filter (isCandidate dist lat lng t))

/-- Candidate filter of the `MOCK_DATABASE` branch of `check_fraud`:
`((f.lat - lat)^2 + (f.lng - lng)^2)^0.5 * 111000 <= 50`, stated
equivalently without the square root. -/
def mockCandidate (lat lng : ℤ) (t : String) (f : Facility) : Bool :=
  decide (f.ftype = t) &&
    decide (((f.lat - lat) ^ 2 + (f.lng - lng) ^ 2) * 111000 ^ 2
      ≤ DUPLICATE_RADIUS_METERS ^ 2)

/-- The `MOCK_DATABASE` branch scans `MOCK_DATA["facilities"]` in insertion
order and returns on the first same-type facility within the radius. -/
def mockFind (fs : List Facility) (lat lng : ℤ) (t : String) : Option Facility :=
  fs.find? (mockCandidate lat lng t)

/-- Verdict construction shared by both branches of `check_fraud`: no row
means NEW; a row updated less than 15 days ago means DUPLICATE; an older row
means UPDATE. -/
def verdictFor (now : ℤ) : Option Facility → FraudCheckResult
  | none => ⟨false, NEW_FACILITY_REWARD, "new_facility", none⟩
  | some f =>
    if daysSince now f.updatedAt < DUPLICATE_WINDOW_DAYS then
      ⟨true, 0, "duplicate_within_15_days", some f.fid⟩
    else
      ⟨false, UPDATE_FACILITY_REWARD, "facility_update", some f.fid⟩

/-- `check_fraud(lat, lng, facility_type)` from `skills/anti_fraud/skill.py`.
`mockDb` selects the `MOCK_DATABASE` branch; `indexUp = false` models the
duplicate-index query raising, which the surrounding `except` turns into the
fail-open default. -/
def check_fraud (mockDb indexUp : Bool) (dist : ℤ → ℤ → ℤ → ℤ → ℤ)
    (fs : List Facility) (lat lng : ℤ) (t : String) (now : ℤ) : FraudCheckResult :=
  if mockDb then
    verdictFor now (mockFind fs lat lng t)
  else if indexUp then
    verdictFor now (findNearest dist fs lat lng t)
  else
    ⟨false, NEW_FACILITY_REWARD, "check_failed_default_new", none⟩

/-! ### Lemmas about nearest-candidate selection -/

theorem selectNearest_eq_none {d : Facility → ℤ} {l : List Facility} :
    selectNearest d l = none ↔ l = [] := by
  cases l with
  | nil => simp [selectNearest]
  | cons f fs =>
    simp only [selectNearest]
    constructor
    · intro h
      cases hs : selectNearest d fs with
      | none => rw [hs] at h; simp [selectStep] at h
      | some g => rw [hs] at h; simp only [selectStep] at h; split at h <;> simp at h
    · intro h; exact absurd h (List.cons_ne_nil f fs)

theorem selectNearest_mem {d : Facility → ℤ} :
    ∀ {l : List Facility} {g : Facility}, selectNearest d l = some g → g ∈ l
  | [], g, h => by simp [selectNearest] at h
  | f :: fs, g, h => by
    simp only [selectNearest] at h
    cases hs : selectNearest d fs with
    | none => rw [hs] at h; simp [selectStep] at h; simp [h]
    | some g0 =>
      rw [hs] at h
      simp only [selectStep] at h
      by_cases hlt : d g0 < d f
      · rw [if_pos hlt] at h
        simp at h; subst h
        exact List.mem_cons_of_mem _ (selectNearest_mem hs)
      · rw [if_neg hlt] at h
        simp at h; simp [h]

theorem selectNearest_min {d : Facility → ℤ} :
    ∀ {l : List Facility} {g : Facility}, selectNearest d l = some g →
      ∀ f ∈ l, d g ≤ d f
  | [], g, h => by simp [selectNearest] at h
  | f :: fs, g, h => by
    intro x hx
    simp only [selectNearest] at h
    cases hs : selectNearest d fs with
    | none =>
      rw [hs] at h; simp [selectStep] at h; subst h
      rcases List.mem_cons.mp hx with hx | hx
      · rw [hx]
      · rw [selectNearest_eq_none.mp hs] at hx; exact absurd hx (List.not_mem_nil x)
    | some g0 =>
      rw [hs] at h
      simp only [selectStep] at h
      by_cases hlt : d g0 < d f
      · rw [if_pos hlt] at h; simp at h; subst h
        rcases List.mem_cons.mp hx with hx | hx
        · rw [hx]; exact le_of_lt hlt
        · exact selectNearest_min hs x hx
      · rw [if_neg hlt] at h; simp at h; subst h
        rcases List.mem_cons.mp hx with hx | hx
        · rw [hx]
        · exact le_trans (le_of_not_lt hlt) (selectNearest_min hs x hx)

theorem findNearest_eq_none_iff {dist : ℤ → ℤ → ℤ → ℤ → ℤ} {fs : List Facility}
    {lat lng : ℤ} {t : String} :
    findNearest dist fs lat lng t = none ↔
      ∀ f ∈ fs, ¬(f.ftype = t ∧ dist lat lng f.lat f.lng ≤ DUPLICATE_RADIUS_METERS) := by
  unfold findNearest
  rw [selectNearest_eq_none, List.filter_eq_nil_iff]
  constructor
  · intro h f hf hc
    exact h f hf (by simp [isCandidate, hc.1, hc.2])
  · intro h f hf
    have := h f hf
    simp only [isCandidate, Bool.and_eq_true, decide_eq_true_eq]
    tauto

theorem findNearest_mem {dist : ℤ → ℤ → ℤ → ℤ → ℤ} {fs : List Facility}
    {lat lng : ℤ} {t : String} {g : Facility}
    (h : findNearest dist fs lat lng t = some g) :
    g ∈ fs ∧ g.ftype = t ∧ dist lat lng g.lat g.lng ≤ DUPLICATE_RADIUS_METERS := by
  have hmem := selectNearest_mem h
  have := List.mem_filter.mp hmem
  refine ⟨this.1, ?_⟩
  have hc := this.2
  simpa [isCandidate, Bool.and_eq_true, decide_eq_true_eq] using hc

theorem findNearest_isSome {dist : ℤ → ℤ → ℤ → ℤ → ℤ} {fs : List Facility}
    {lat lng : ℤ} {t : String} {f : Facility} (hf : f ∈ fs) (ht : f.ftype = t)
    (hd : dist lat lng f.lat f.lng ≤ DUPLICATE_RADIUS_METERS) :
    ∃ g, findNearest dist fs lat lng t = some g := by
  cases hq : findNearest dist fs lat lng t with
  | none => exact absurd ⟨ht, hd⟩ (findNearest_eq_none_iff.mp hq f hf)
  | some g => exact ⟨g, rfl⟩

theorem findNearest_min {dist : ℤ → ℤ → ℤ → ℤ → ℤ} {fs : List Facility}
    {lat lng : ℤ} {t : String} {g : Facility}
    (h : findNearest dist fs lat lng t = some g) :
    ∀ f ∈ fs, f.ftype = t → dist lat lng f.lat f.lng ≤ DUPLICATE_RADIUS_METERS →
      dist lat lng g.lat g.lng ≤ dist lat lng f.lat f.lng := by
  intro f hf ht hd
  exact selectNearest_min h f (List.mem_filter.mpr ⟨hf, by simp [isCandidate, ht, hd]⟩)

/-! ### Rate limiter (`check_user_submission_rate`) -/

/-- Result dict of `check_user_submission_rate`; fields absent from a given
return path are `none`. -/
structure RateLimitResult where
  allowed : Bool
  reason : String
  hourly_count : Option Nat := none
  daily_count : Option Nat := none
  remaining_hourly : Option Nat := none
  remaining_daily : Option Nat := none
  wait_minutes : Option ℤ := none
  deriving Repr, DecidableEq

/-- Facility creations by `wallet` in the trailing hour
(`created_at > NOW() - INTERVAL '1 hour'`). -/
def hourlyCount (fs : List Facility) (wallet : String) (now : ℤ) : Nat :=
  (fs.filter (fun f => decide (f.contributor = wallet) && decide (now - f.createdAt < 3600))).length

/-- Facility creations by `wallet` in the trailing day. -/
def dailyCount (fs : List Facility) (wallet : String) (now : ℤ) : Nat :=
  (fs.filter (fun f => decide (f.contributor = wallet) && decide (now - f.createdAt < 86400))).length

/-- `check_user_submission_rate(wallet_address)` from
`skills/anti_fraud/skill.py`.  `storeUp = false` models the counting store
raising, which the `except` turns into the fail-open allow. -/
def check_user_submission_rate (storeUp : Bool) (fs : List Facility)
    (wallet : String) (now : ℤ) : RateLimitResult :=
  if storeUp then
    let hourly := hourlyCount fs wallet now
    let daily := dailyCount fs wallet now
    if 10 ≤ hourly then
      { allowed := false, reason := "Hourly limit reached (10/hour)",
        hourly_count := some hourly, daily_count := some daily,
        wait_minutes := some 60 }
    else if 50 ≤ daily then
      { allowed := false, reason := "Daily limit reached (50/day)",
        hourly_count := some hourly, daily_count := some daily,
        wait_minutes := some 1440 }
    else
      { allowed := true, reason := "within_limits",
        hourly_count := some hourly, daily_count := some daily,
        remaining_hourly := some (10 - hourly), remaining_daily := some (50 - daily) }
  else
    { allowed := true, reason := "check_failed_default_allow" }

/-! ### Blockchain skill (`send_reward`) -/

/-- Configuration state of `BlockchainClient` in
`skills/blockchain/skill.py`. -/
structure BlockchainClient where
  mockBlockchain : Bool
  connected : Bool
  hasAccount : Bool
  hasToken : Bool
  deriving Repr, DecidableEq

/-- `BlockchainClient.is_configured`. -/
def is_configured (c : BlockchainClient) : Bool :=
  if c.mockBlockchain then true else c.connected && c.hasAccount && c.hasToken

/-- The dummy hash `"0x" + "0" * 64` returned when the client is not
configured. -/
def dummyTxHash : String := "0x" ++ String.mk (List.replicate 64 '0')

/-- `send_reward(wallet, amount)` from `skills/blockchain/skill.py`.
`mockHash` models the sha256-derived fake hash of the `MOCK_BLOCKCHAIN`
branch; `chainResult` is the outcome of the real mint transaction (`ok` a
transaction hash on a status-1 receipt, `error` when the call raises or the
receipt status is 0, in which case the function re-raises). -/
def send_reward (c : BlockchainClient) (mockHash : String → ℤ → String)
    (chainResult : Except String String) (wallet : String) (amount : ℤ) :
    Except String String :=
  if c.mockBlockchain then Except.ok (mockHash wallet amount)
  else if is_configured c = false then Except.ok dummyTxHash
  else chainResult

/-! ### Database skill: facility create / update, reward append -/

/-- `update_facility(facility_id, data)` from `skills/database/skill.py`, as
invoked by the pipeline with both `image_url` and `ai_analysis` present: the
matching row gets the new image reference, classification payload and
`updated_at = NOW()`; every other row and every other column is untouched. -/
def update_facility (fs : List Facility) (fid : Nat) (img : String)
    (ai : VisionResult) (now : ℤ) : List Facility :=
  fs.map (fun f =>
    if f.fid = fid then
      { f with imageUrl := img, aiAnalysis := ai, updatedAt := now }
    else f)

/-- The row inserted by `save_facility`: fresh id, `created_at = updated_at
= NOW()`. -/
def newFacility (fid : Nat) (t : String) (lat lng : ℤ) (img : String)
    (ai : VisionResult) (wallet : String) (now : ℤ) : Facility :=
  ⟨fid, t, lat, lng, img, ai, wallet, now, now⟩

/-! ### The verification pipeline (`Help2EarnAgent.process_upload`) -/

/-- Outcomes of the pipeline's external collaborators for one run.  The
pipeline itself is deterministic given these.  `Except.error msg` models the
corresponding Python call raising an exception with text `msg`. -/
structure Env where
  mockDb : Bool
  dist : ℤ → ℤ → ℤ → ℤ → ℤ
  indexUp : Bool
  vision : Except String VisionResult
  saveOk : Except String Unit
  updateOk : Bool
  payOutcome : Except String String
  recordOk : Except String Unit
  now : ℤ

/-- Database state plus instrumentation counters: `classifyCalls` counts
invocations of the vision service and `paymentCalls` invocations of
`send_reward`. -/
structure World where
  facilities : List Facility
  rewards : List Reward
  nextFacilityId : Nat
  nextRewardId : Nat
  classifyCalls : Nat
  paymentCalls : Nat
  deriving Repr, DecidableEq

/-- Submission flowing into `process_upload`: position, wallet, optional
pre-uploaded image URI (the image bytes are consumed only by the vision
call, whose outcome is already in `Env`). -/
structure Submission where
  lat : ℤ
  lng : ℤ
  wallet : String
  imageUrl : Option String
  deriving Repr, DecidableEq

/-- `image_url or "pending"` from the agent's save/update calls. -/
def imageUrlOf (s : Submission) : String := s.imageUrl.getD "pending"

/-- Result dict of `process_upload`; fields absent from a given return path
are `none`. -/
structure UploadResult where
  success : Bool
  facility_id : Option Nat := none
  facility_type : Option String := none
  condition : Option String := none
  reward_amount : Option ℤ := none
  tx_hash : Option String := none
  reason : Option String := none
  deriving Repr, DecidableEq

/-- The fraud check exactly as the pipeline invokes it (Step 2). -/
def fraudOf (env : Env) (w : World) (s : Submission) (t : String) : FraudCheckResult :=
  check_fraud env.mockDb env.indexUp env.dist w.facilities s.lat s.lng t env.now

/-- Option-valued transaction hash produced by Step 4's `try/except`:
`tx_hash = None` when `send_reward` raised. -/
def txOf : Except String String → Option String
  | Except.ok h => some h
  | Except.error _ => none

/-- Steps 4 and 5 of `process_upload`: attempt the payment (failure degrades
to a null hash), then append the reward record; a ledger failure propagates
to the outer handler. -/
def payAndRecord (env : Env) (w : World) (s : Submission) (v : VisionResult)
    (fid : Nat) (reward : ℤ) : UploadResult × World :=
  let w1 : World := { w with paymentCalls := w.paymentCalls + 1 }
  let tx : Option String := txOf env.payOutcome
  match env.recordOk with
  | Except.error msg =>
    ({ success := false, reason := some ("Processing error: " ++ msg) }, w1)
  | Except.ok _ =>
    ({ success := true, facility_id := some fid,
       facility_type := some v.facility_type, condition := v.condition,
       reward_amount := some reward, tx_hash := tx },
     { w1 with rewards := w1.rewards ++ [⟨w1.nextRewardId, s.wallet, fid, reward, tx, env.now⟩],
               nextRewardId := w1.nextRewardId + 1 })

/-- Step 1 always happens first: the vision service is invoked (whatever its
outcome), recorded in the instrumentation counter. -/
def classifyStep (w : World) : World := { w with classifyCalls := w.classifyCalls + 1 }

/-- Step 3, UPDATE path: `update_facility(existing_facility_id, ...)`.  On
repository failure `update_facility` returns `False` without raising, so the
world is unchanged and the pipeline continues regardless. -/
def persistUpdate (env : Env) (w : World) (s : Submission) (v : VisionResult)
    (fid : Nat) : World :=
  if env.updateOk then
    { w with facilities := update_facility w.facilities fid (imageUrlOf s) v env.now }
  else w

/-- Step 3, NEW path: `save_facility(...)` inserts a fresh row. -/
def persistCreate (env : Env) (w : World) (s : Submission) (v : VisionResult) : World :=
  { w with
    facilities := w.facilities ++
      [newFacility w.nextFacilityId v.facility_type s.lat s.lng (imageUrlOf s) v s.wallet env.now],
    nextFacilityId := w.nextFacilityId + 1 }

/-- `Help2EarnAgent.process_upload` from `agent/help2earn_agent.py`:
classification, fraud check, persist (update when an existing facility id
was attached, create otherwise), payment, reward record.  Any uncaught
exception reaches the outer handler and yields
`"Processing error: " + str(e)`.  Note that `update_facility` reports
failure through its boolean return value, which the agent ignores. -/
def process_upload (env : Env) (w : World) (s : Submission) : UploadResult × World :=
  match env.vision with
  | Except.error msg =>
    ({ success := false, reason := some ("Processing error: " ++ msg) }, classifyStep w)
  | Except.ok v =>
    if v.is_valid = false then
      ({ success := false,
         reason := some (v.condition.getD "Not a valid accessibility facility") },
       classifyStep w)
    else if (fraudOf env w s v.facility_type).is_fraud then
      ({ success := false,
         reason := some ("Duplicate submission: " ++ (fraudOf env w s v.facility_type).reason) },
       classifyStep w)
    else
      match (fraudOf env w s v.facility_type).existing_facility_id with
      | some fid =>
        payAndRecord env (persistUpdate env (classifyStep w) s v fid) s v fid
          (fraudOf env w s v.facility_type).reward_amount
      | none =>
        match env.saveOk with
        | Except.error msg =>
          ({ success := false, reason := some ("Processing error: " ++ msg) }, classifyStep w)
        | Except.ok _ =>
          payAndRecord env (persistCreate env (classifyStep w) s v) s v w.nextFacilityId
            (fraudOf env w s v.facility_type).reward_amount

/-! ### Helper lemmas about the fraud verdict -/

theorem verdictFor_some_existing (now : ℤ) (f : Facility) :
    (verdictFor now (some f)).existing_facility_id = some f.fid := by
  simp only [verdictFor]; split <;> rfl

theorem verdictFor_some_reason (now : ℤ) (f : Facility) :
    (verdictFor now (some f)).reason = "duplicate_within_15_days" ∨
      (verdictFor now (some f)).reason = "facility_update" := by
  simp only [verdictFor]; split
  · exact Or.inl rfl
  · exact Or.inr rfl

/-- An existing-facility reference produced by `check_fraud` always names a
row of the queried table. -/
theorem check_fraud_existing_mem {mockDb indexUp : Bool} {dist : ℤ → ℤ → ℤ → ℤ → ℤ}
    {fs : List Facility} {lat lng : ℤ} {t : String} {now : ℤ} {fid : Nat}
    (h : (check_fraud mockDb indexUp dist fs lat lng t now).existing_facility_id = some fid) :
    ∃ f ∈ fs, f.fid = fid := by
  unfold check_fraud at h
  split at h
  · cases hm : mockFind fs lat lng t with
    | none => rw [hm] at h; simp [verdictFor] at h
    | some f =>
      rw [hm, verdictFor_some_existing] at h
      exact ⟨f, List.mem_of_find?_eq_some hm, Option.some.inj h⟩
  · split at h
    · cases hq : findNearest dist fs lat lng t with
      | none => rw [hq] at h; simp [verdictFor] at h
      | some f =>
        rw [hq, verdictFor_some_existing] at h
        exact ⟨f, (findNearest_mem hq).1, Option.some.inj h⟩
    · simp at h

/-- In the production branch, an existing-facility reference names a
same-type row within the duplicate radius. -/
theorem check_fraud_db_existing {dist : ℤ → ℤ → ℤ → ℤ → ℤ}
    {fs : List Facility} {lat lng : ℤ} {t : String} {now : ℤ} {fid : Nat}
    (h : (check_fraud false true dist fs lat lng t now).existing_facility_id = some fid) :
    ∃ f ∈ fs, f.fid = fid ∧ f.ftype = t ∧
      dist lat lng f.lat f.lng ≤ DUPLICATE_RADIUS_METERS := by
  unfold check_fraud at h
  simp only [if_neg, if_pos, Bool.false_eq_true, if_false, if_true] at h
  cases hq : findNearest dist fs lat lng t with
  | none => rw [hq] at h; simp [verdictFor] at h
  | some f =>
    rw [hq, verdictFor_some_existing] at h
    obtain ⟨hmem, ht, hd⟩ := findNearest_mem hq
    exact ⟨f, hmem, Option.some.inj h, ht, hd⟩

/-! ### Helper lemmas about the pipeline stages -/

theorem payAndRecord_facilities (env : Env) (w : World) (s : Submission)
    (v : VisionResult) (fid : Nat) (r : ℤ) :
    (payAndRecord env w s v fid r).2.facilities = w.facilities := by
  unfold payAndRecord
  cases env.recordOk <;> rfl

theorem payAndRecord_paymentCalls (env : Env) (w : World) (s : Submission)
    (v : VisionResult) (fid : Nat) (r : ℤ) :
    (payAndRecord env w s v fid r).2.paymentCalls = w.paymentCalls + 1 := by
  unfold payAndRecord
  cases env.recordOk <;> rfl

theorem payAndRecord_classifyCalls (env : Env) (w : World) (s : Submission)
    (v : VisionResult) (fid : Nat) (r : ℤ) :
    (payAndRecord env w s v fid r).2.classifyCalls = w.classifyCalls := by
  unfold payAndRecord
  cases env.recordOk <;> rfl

theorem payAndRecord_ok (env : Env) (w : World) (s : Submission)
    (v : VisionResult) (fid : Nat) (r : ℤ) (hrec : env.recordOk = Except.ok ()) :
    payAndRecord env w s v fid r =
      ({ success := true, facility_id := some fid,
         facility_type := some v.facility_type, condition := v.condition,
         reward_amount := some r, tx_hash := txOf env.payOutcome },
       { w with paymentCalls := w.paymentCalls + 1,
                rewards := w.rewards ++ [⟨w.nextRewardId, s.wallet, fid, r, txOf env.payOutcome, env.now⟩],
                nextRewardId := w.nextRewardId + 1 }) := by
  unfold payAndRecord
  rw [hrec]

theorem persistUpdate_facilities_ids (env : Env) (w : World) (s : Submission)
    (v : VisionResult) (fid : Nat) :
    (persistUpdate env w s v fid).facilities.map Facility.fid =
      w.facilities.map Facility.fid := by
  unfold persistUpdate update_facility
  split
  · rw [List.map_map]
    apply List.map_congr_left
    intro f _
    by_cases h : f.fid = fid <;> simp [h]
  · rfl

/-- Reduction of the pipeline on the UPDATE path. -/
theorem process_upload_update_eq (env : Env) (w : World) (s : Submission)
    (v : VisionResult) (fid : Nat)
    (hv : env.vision = Except.ok v) (hvalid : v.is_valid = true)
    (hnf : (fraudOf env w s v.facility_type).is_fraud = false)
    (hex : (fraudOf env w s v.facility_type).existing_facility_id = some fid) :
    process_upload env w s =
      payAndRecord env (persistUpdate env (classifyStep w) s v fid) s v fid
        (fraudOf env w s v.facility_type).reward_amount := by
  unfold process_upload
  rw [hv]
  simp only [hvalid, hnf, hex, Bool.true_eq_false, if_false, Bool.false_eq_true]

/-- Reduction of the pipeline on the NEW path. -/
theorem process_upload_create_eq (env : Env) (w : World) (s : Submission)
    (v : VisionResult)
    (hv : env.vision = Except.ok v) (hvalid : v.is_valid = true)
    (hnf : (fraudOf env w s v.facility_type).is_fraud = false)
    (hex : (fraudOf env w s v.facility_type).existing_facility_id = none)
    (hsave : env.saveOk = Except.ok ()) :
    process_upload env w s =
      payAndRecord env (persistCreate env (classifyStep w) s v) s v w.nextFacilityId
        (fraudOf env w s v.facility_type).reward_amount := by
  unfold process_upload
  rw [hv]
  simp only [hvalid, hnf, hex, hsave, Bool.true_eq_false, if_false, Bool.false_eq_true]

/-- Reduction of the pipeline on the fraud-rejection path. -/
theorem process_upload_fraud_eq (env : Env) (w : World) (s : Submission)
    (v : VisionResult)
    (hv : env.vision = Except.ok v) (hvalid : v.is_valid = true)
    (hf : (fraudOf env w s v.facility_type).is_fraud = true) :
    process_upload env w s =
      ({ success := false,
         reason := some ("Duplicate submission: " ++ (fraudOf env w s v.facility_type).reason) },
       classifyStep w) := by
  unfold process_upload
  rw [hv]
  simp only [hvalid, hf, Bool.true_eq_false, if_false, if_true]

/-- Reduction of the pipeline when the vision call raises. -/
theorem process_upload_vision_error_eq (env : Env) (w : World) (s : Submission)
    (msg : String) (hv : env.vision = Except.error msg) :
    process_upload env w s =
      ({ success := false, reason := some ("Processing error: " ++ msg) },
       classifyStep w) := by
  unfold process_upload
  rw [hv]

/-- Reduction of the pipeline on the content-rejection path. -/
theorem process_upload_invalid_eq (env : Env) (w : World) (s : Submission)
    (v : VisionResult)
    (hv : env.vision = Except.ok v) (hvalid : v.is_valid = false) :
    process_upload env w s =
      ({ success := false,
         reason := some (v.condition.getD "Not a valid accessibility facility") },
       classifyStep w) := by
  unfold process_upload
  rw [hv]
  simp only [hvalid, if_true]

/-- Reduction of the pipeline when `save_facility` raises. -/
theorem process_upload_save_error_eq (env : Env) (w : World) (s : Submission)
    (v : VisionResult) (msg : String)
    (hv : env.vision = Except.ok v) (hvalid : v.is_valid = true)
    (hnf : (fraudOf env w s v.facility_type).is_fraud = false)
    (hex : (fraudOf env w s v.facility_type).existing_facility_id = none)
    (hsave : env.saveOk = Except.error msg) :
    process_upload env w s =
      ({ success := false, reason := some ("Processing error: " ++ msg) },
       classifyStep w) := by
  unfold process_upload
  rw [hv]
  simp only [hvalid, hnf, hex, hsave, Bool.true_eq_false, if_false, Bool.false_eq_true]

/-- The pipeline always invokes the vision service exactly once. -/
theorem process_upload_classifyCalls (env : Env) (w : World) (s : Submission) :
    (process_upload env w s).2.classifyCalls = w.classifyCalls + 1 := by
  unfold process_upload
  split
  · rfl
  · split
    · rfl
    · split
      · rfl
      · split
        · rw [payAndRecord_classifyCalls]
          unfold persistUpdate
          split <;> rfl
        · split
          · rfl
          · rw [payAndRecord_classifyCalls]
            rfl

/-! ### Helper lemmas about facility updates -/

/-- `check_fraud` production path, unfolded. -/
theorem check_fraud_db_eq (dist : ℤ → ℤ → ℤ → ℤ → ℤ) (fs : List Facility)
    (lat lng : ℤ) (t : String) (now : ℤ) :
    check_fraud false true dist fs lat lng t now =
      verdictFor now (findNearest dist fs lat lng t) := rfl

/-- Updating a facility list leaves every row's identity, type, position,
contributor and creation time intact. -/
theorem update_facility_exists_like {fs : List Facility} {f : Facility} (hf : f ∈ fs)
    (fid : Nat) (img : String) (ai : VisionResult) (now : ℤ) :
    ∃ g ∈ update_facility fs fid img ai now,
      g.fid = f.fid ∧ g.ftype = f.ftype ∧ g.lat = f.lat ∧ g.lng = f.lng ∧
      g.contributor = f.contributor ∧ g.createdAt = f.createdAt := by
  unfold update_facility
  refine ⟨_, List.mem_map_of_mem _ hf, ?_⟩
  by_cases h : f.fid = fid <;> simp [h]

theorem persistUpdate_rewards (env : Env) (w : World) (s : Submission)
    (v : VisionResult) (fid : Nat) :
    (persistUpdate env w s v fid).rewards = w.rewards := by
  unfold persistUpdate; split <;> rfl

theorem persistUpdate_nextRewardId (env : Env) (w : World) (s : Submission)
    (v : VisionResult) (fid : Nat) :
    (persistUpdate env w s v fid).nextRewardId = w.nextRewardId := by
  unfold persistUpdate; split <;> rfl

theorem persistUpdate_exists_fid (env : Env) (w : World) (s : Submission)
    (v : VisionResult) {fid : Nat} {f : Facility}
    (hf : f ∈ w.facilities) (hfid : f.fid = fid) :
    ∃ g ∈ (persistUpdate env w s v fid).facilities, g.fid = fid := by
  unfold persistUpdate
  split
  · obtain ⟨g, hg, hgf, _⟩ := update_facility_exists_like hf fid (imageUrlOf s) v env.now
    exact ⟨g, hg, hgf.trans hfid⟩
  · exact ⟨f, hf, hfid⟩

/-- Shape of a fully successful pipeline run: DONE with the facility id and
reward amount in the result, the facility present, and exactly one new
reward record carrying `txOf env.payOutcome`. -/
theorem process_upload_success_shape (env : Env) (w : World) (s : Submission)
    (v : VisionResult)
    (hv : env.vision = Except.ok v) (hvalid : v.is_valid = true)
    (hnf : (fraudOf env w s v.facility_type).is_fraud = false)
    (hsave : env.saveOk = Except.ok ())
    (hrec : env.recordOk = Except.ok ()) :
    ∃ fid,
      (process_upload env w s).1 =
        { success := true, facility_id := some fid,
          facility_type := some v.facility_type, condition := v.condition,
          reward_amount := some (fraudOf env w s v.facility_type).reward_amount,
          tx_hash := txOf env.payOutcome } ∧
      (∃ f ∈ (process_upload env w s).2.facilities, f.fid = fid) ∧
      (process_upload env w s).2.rewards =
        w.rewards ++ [⟨w.nextRewardId, s.wallet, fid,
          (fraudOf env w s v.facility_type).reward_amount, txOf env.payOutcome, env.now⟩] := by
  cases hex : (fraudOf env w s v.facility_type).existing_facility_id with
  | some fid =>
    rw [process_upload_update_eq env w s v fid hv hvalid hnf hex,
        payAndRecord_ok _ _ _ _ _ _ hrec]
    obtain ⟨f0, hf0, hfid⟩ := check_fraud_existing_mem hex
    refine ⟨fid, rfl, ?_, ?_⟩
    · obtain ⟨g, hg, hgf⟩ := persistUpdate_exists_fid env (classifyStep w) s v hf0 hfid
      exact ⟨g, hg, hgf⟩
    · show (persistUpdate env (classifyStep w) s v fid).rewards ++
          [⟨(persistUpdate env (classifyStep w) s v fid).nextRewardId, s.wallet, fid, _, _, _⟩] = _
      rw [persistUpdate_rewards, persistUpdate_nextRewardId]
      rfl
  | none =>
    rw [process_upload_create_eq env w s v hv hvalid hnf hex hsave,
        payAndRecord_ok _ _ _ _ _ _ hrec]
    refine ⟨w.nextFacilityId, rfl, ?_, rfl⟩
    exact ⟨newFacility w.nextFacilityId v.facility_type s.lat s.lng (imageUrlOf s) v s.wallet env.now,
      List.mem_append_right _ (List.mem_singleton.mpr rfl), rfl⟩

/-! ### Concrete values for witnesses -/

/-- A concrete stand-in geographic distance for witnesses: squared Euclidean
distance on raw coordinates (the policy takes the distance function as a
parameter, so any concrete choice is admissible). -/
def demoDist (lat lng flat flng : ℤ) : ℤ :=
  (flat - lat) * (flat - lat) + (flng - lng) * (flng - lng)

def demoAnalysis : VisionResult := ⟨true, "ramp", some "good condition"⟩

/-- Facility whose last update is now (0 days ago). -/
def freshFacility : Facility := ⟨1, "ramp", 0, 0, "a.jpg", demoAnalysis, "0xaaa", 0, 0⟩

/-- Facility whose last update is 20 days in the past. -/
def staleFacility : Facility := ⟨2, "ramp", 0, 0, "b.jpg", demoAnalysis, "0xaaa", -1728000, -1728000⟩

/-- Facility at `demoDist` 36 from the origin. -/
def farFacility : Facility := ⟨3, "ramp", 6, 0, "c.jpg", demoAnalysis, "0xaaa", -1728000, -1728000⟩

/-- Facility at `demoDist` 4 from the origin. -/
def nearFacility : Facility := ⟨4, "ramp", 2, 0, "d.jpg", demoAnalysis, "0xaaa", 0, 0⟩

/-! ### Claim C1 -/

/-- Claim C1: for every fraud-policy evaluation of a position and facility
type (production path): if no same-type facility exists within the 50-meter
radius, the verdict is NEW with reward 50 and no existing-facility
reference; if the facility found within the radius was updated less than 15
days ago, the verdict is DUPLICATE with reward 0 and the existing facility
id attached; if it was updated 15 or more days ago, the verdict is UPDATE
with reward 25 and the existing facility id attached. -/
theorem fraud_policy_tier_correct (dist : ℤ → ℤ → ℤ → ℤ → ℤ) (fs : List Facility)
    (lat lng : ℤ) (t : String) (now : ℤ) :
    ((∀ f ∈ fs, f.ftype = t → ¬dist lat lng f.lat f.lng ≤ 50) →
      check_fraud false true dist fs lat lng t now =
        ⟨false, 50, "new_facility", none⟩) ∧
    (∀ f, findNearest dist fs lat lng t = some f →
      daysSince now f.updatedAt < 15 →
      check_fraud false true dist fs lat lng t now =
        ⟨true, 0, "duplicate_within_15_days", some f.fid⟩) ∧
    (∀ f, findNearest dist fs lat lng t = some f →
      15 ≤ daysSince now f.updatedAt →
      check_fraud false true dist fs lat lng t now =
        ⟨false, 25, "facility_update", some f.fid⟩) := by
  refine ⟨?_, ?_, ?_⟩
  · intro h
    have hn : findNearest dist fs lat lng t = none :=
      findNearest_eq_none_iff.mpr (fun f hf hc => h f hf hc.1 hc.2)
    rw [check_fraud_db_eq, hn]
    rfl
  · intro f hq hdays
    have hdays' : daysSince now f.updatedAt < DUPLICATE_WINDOW_DAYS := hdays
    rw [check_fraud_db_eq, hq]
    simp only [verdictFor]
    rw [if_pos hdays']
  · intro f hq hdays
    have hdays' : ¬daysSince now f.updatedAt < DUPLICATE_WINDOW_DAYS := not_lt.mpr hdays
    rw [check_fraud_db_eq, hq]
    simp only [verdictFor]
    rw [if_neg hdays']
    rfl

/-- Witness for C1: all three tiers at concrete inputs. -/
theorem fraud_policy_tier_correct_witness :
    check_fraud false true demoDist [] 0 0 "ramp" 0 =
      ⟨false, 50, "new_facility", none⟩ ∧
    check_fraud false true demoDist [freshFacility] 0 0 "ramp" 0 =
      ⟨true, 0, "duplicate_within_15_days", some 1⟩ ∧
    check_fraud false true demoDist [staleFacility] 0 0 "ramp" 0 =
      ⟨false, 25, "facility_update", some 2⟩ := by
  refine ⟨(fraud_policy_tier_correct demoDist [] 0 0 "ramp" 0).1 (by simp),
    (fraud_policy_tier_correct demoDist [freshFacility] 0 0 "ramp" 0).2.1
      freshFacility (by decide) (by decide),
    (fraud_policy_tier_correct demoDist [staleFacility] 0 0 "ramp" 0).2.2
      staleFacility (by decide) (by decide)⟩

/-! ### Claim C4 -/

/-- Claim C4: for every fraud-policy evaluation in which the duplicate-index
query fails, the policy fails open: it returns a non-fraud NEW verdict with
the full reward 50 and the reason code "check_failed_default_new", with no
existing-facility reference, rather than rejecting the submission. -/
theorem index_failure_fails_open (dist : ℤ → ℤ → ℤ → ℤ → ℤ) (fs : List Facility)
    (lat lng : ℤ) (t : String) (now : ℤ) :
    check_fraud false false dist fs lat lng t now =
      ⟨false, 50, "check_failed_default_new", none⟩ := rfl

/-! ### Claim C7 -/

/-- Claim C7: whenever multiple same-type facilities fall within the
50-meter radius of a submission's position, the fraud policy's authoritative
existing facility is one at minimal distance among all in-radius same-type
candidates (nearest by distance, not by recency). -/
theorem nearest_candidate_authoritative (dist : ℤ → ℤ → ℤ → ℤ → ℤ)
    (fs : List Facility) (lat lng : ℤ) (t : String) (now : ℤ) (f1 f2 : Facility)
    (h1 : f1 ∈ fs) (h1t : f1.ftype = t) (h1d : dist lat lng f1.lat f1.lng ≤ 50)
    (_h2 : f2 ∈ fs) (_h2t : f2.ftype = t) (_h2d : dist lat lng f2.lat f2.lng ≤ 50)
    (_hne : f1.fid ≠ f2.fid) :
    ∃ g, findNearest dist fs lat lng t = some g ∧
      (check_fraud false true dist fs lat lng t now).existing_facility_id = some g.fid ∧
      ∀ f ∈ fs, f.ftype = t → dist lat lng f.lat f.lng ≤ 50 →
        dist lat lng g.lat g.lng ≤ dist lat lng f.lat f.lng := by
  obtain ⟨g, hg⟩ := findNearest_isSome h1 h1t h1d
  exact ⟨g, hg, by rw [check_fraud_db_eq, hg, verdictFor_some_existing],
    fun f hf ht hd => findNearest_min hg f hf ht hd⟩

/-- Witness for C7: with a far facility listed first and a near one second,
the policy's authoritative facility minimizes the distance. -/
theorem nearest_candidate_authoritative_witness :
    ∃ g, findNearest demoDist [farFacility, nearFacility] 0 0 "ramp" = some g ∧
      (check_fraud false true demoDist [farFacility, nearFacility] 0 0 "ramp" 0).existing_facility_id =
        some g.fid ∧
      ∀ f ∈ [farFacility, nearFacility], f.ftype = "ramp" →
        demoDist 0 0 f.lat f.lng ≤ 50 →
        demoDist 0 0 g.lat g.lng ≤ demoDist 0 0 f.lat f.lng :=
  nearest_candidate_authoritative demoDist [farFacility, nearFacility] 0 0 "ramp" 0
    farFacility nearFacility (by decide) (by decide) (by decide)
    (by decide) (by decide) (by decide) (by decide)

/-! ### Claim C2 -/

/-- Claim C2: for every submission that passed classification and the fraud
check and was durably persisted, if the token payment raises, the pipeline
does not roll back the persisted facility and does not abort: it writes
exactly one reward record with a null transaction identifier and terminates
successfully with the facility id and reward amount in the result. -/
theorem paying_failure_degrades_to_null_tx (env : Env) (w : World) (s : Submission)
    (v : VisionResult) (msg : String)
    (hv : env.vision = Except.ok v) (hvalid : v.is_valid = true)
    (hnf : (fraudOf env w s v.facility_type).is_fraud = false)
    (hsave : env.saveOk = Except.ok ())
    (hpay : env.payOutcome = Except.error msg)
    (hrec : env.recordOk = Except.ok ()) :
    ∃ fid,
      (process_upload env w s).1 =
        { success := true, facility_id := some fid,
          facility_type := some v.facility_type, condition := v.condition,
          reward_amount := some (fraudOf env w s v.facility_type).reward_amount,
          tx_hash := none } ∧
      (∃ f ∈ (process_upload env w s).2.facilities, f.fid = fid) ∧
      (process_upload env w s).2.rewards =
        w.rewards ++ [⟨w.nextRewardId, s.wallet, fid,
          (fraudOf env w s v.facility_type).reward_amount, none, env.now⟩] := by
  have h := process_upload_success_shape env w s v hv hvalid hnf hsave hrec
  have htx : txOf env.payOutcome = none := by rw [hpay]; rfl
  rw [htx] at h
  exact h

def c2Vision : VisionResult := ⟨true, "toilet", some "clean"⟩
def c2Sub : Submission := ⟨10, 20, "0xbbb", some "t.jpg"⟩
def c2World : World := ⟨[], [], 7, 3, 0, 0⟩
def c2Env : Env :=
  ⟨false, demoDist, true, Except.ok c2Vision, Except.ok (), true,
   Except.error "rpc timeout", Except.ok (), 1000⟩

/-- Witness for C2 at a concrete run whose payment step raises. -/
theorem paying_failure_degrades_to_null_tx_witness :
    ∃ fid,
      (process_upload c2Env c2World c2Sub).1 =
        { success := true, facility_id := some fid,
          facility_type := some c2Vision.facility_type, condition := c2Vision.condition,
          reward_amount := some (fraudOf c2Env c2World c2Sub c2Vision.facility_type).reward_amount,
          tx_hash := none } ∧
      (∃ f ∈ (process_upload c2Env c2World c2Sub).2.facilities, f.fid = fid) ∧
      (process_upload c2Env c2World c2Sub).2.rewards =
        c2World.rewards ++ [⟨c2World.nextRewardId, c2Sub.wallet, fid,
          (fraudOf c2Env c2World c2Sub c2Vision.facility_type).reward_amount, none, c2Env.now⟩] :=
  paying_failure_degrades_to_null_tx c2Env c2World c2Sub c2Vision "rpc timeout"
    rfl rfl (by decide) rfl rfl rfl

/-! ### Claim C10 -/

/-- Claim C10: when the blockchain client is not in mock mode and not fully
configured, `send_reward` does not fail: it returns the dummy transaction
hash `"0x" + "0" * 64`, so a pipeline whose payment step is that call
records a reward record with a non-null transaction identifier even though
no on-chain payment occurred. -/
theorem unconfigured_payer_dummy_hash (c : BlockchainClient)
    (mockHash : String → ℤ → String) (chainResult : Except String String)
    (wallet : String) (amount : ℤ) (env : Env) (w : World) (s : Submission)
    (v : VisionResult)
    (hmb : c.mockBlockchain = false) (hconf : is_configured c = false)
    (hv : env.vision = Except.ok v) (hvalid : v.is_valid = true)
    (hnf : (fraudOf env w s v.facility_type).is_fraud = false)
    (hsave : env.saveOk = Except.ok ()) (hrec : env.recordOk = Except.ok ())
    (hpay : env.payOutcome = send_reward c mockHash chainResult wallet amount) :
    send_reward c mockHash chainResult wallet amount = Except.ok dummyTxHash ∧
    ∃ fid,
      (process_upload env w s).1.success = true ∧
      (process_upload env w s).1.tx_hash = some dummyTxHash ∧
      (process_upload env w s).2.rewards =
        w.rewards ++ [⟨w.nextRewardId, s.wallet, fid,
          (fraudOf env w s v.facility_type).reward_amount, some dummyTxHash, env.now⟩] := by
  have hsr : send_reward c mockHash chainResult wallet amount = Except.ok dummyTxHash := by
    unfold send_reward
    rw [hmb, hconf]
    simp
  refine ⟨hsr, ?_⟩
  obtain ⟨fid, hres, _, hrew⟩ := process_upload_success_shape env w s v hv hvalid hnf hsave hrec
  have htx : txOf env.payOutcome = some dummyTxHash := by rw [hpay, hsr]; rfl
  rw [htx] at hres hrew
  exact ⟨fid, by rw [hres], by rw [hres], hrew⟩

def c10Client : BlockchainClient := ⟨false, true, true, false⟩
def c10Vision : VisionResult := ⟨true, "elevator", some "works"⟩
def c10Sub : Submission := ⟨1, 2, "0xccc", none⟩
def c10World : World := ⟨[], [], 0, 0, 0, 0⟩
def c10Env : Env :=
  ⟨false, demoDist, true, Except.ok c10Vision, Except.ok (), true,
   send_reward c10Client (fun _ _ => "mockhash") (Except.error "unreachable") "0xccc" 50,
   Except.ok (), 500⟩

/-- Witness for C10 at a concrete run with an unconfigured client. -/
theorem unconfigured_payer_dummy_hash_witness :
    send_reward c10Client (fun _ _ => "mockhash") (Except.error "unreachable") "0xccc" 50 =
      Except.ok dummyTxHash ∧
    ∃ fid,
      (process_upload c10Env c10World c10Sub).1.success = true ∧
      (process_upload c10Env c10World c10Sub).1.tx_hash = some dummyTxHash ∧
      (process_upload c10Env c10World c10Sub).2.rewards =
        c10World.rewards ++ [⟨c10World.nextRewardId, c10Sub.wallet, fid,
          (fraudOf c10Env c10World c10Sub c10Vision.facility_type).reward_amount,
          some dummyTxHash, c10Env.now⟩] :=
  unconfigured_payer_dummy_hash c10Client (fun _ _ => "mockhash") (Except.error "unreachable")
    "0xccc" 50 c10Env c10World c10Sub c10Vision rfl rfl rfl rfl (by decide) rfl rfl rfl

/-! ### Claim C3 -/

def c3Vision : VisionResult := ⟨true, "ramp", some "good"⟩
def c3Facility : Facility := ⟨1, "ramp", 0, 0, "old.jpg", c3Vision, "0xowner", -1728000, -1728000⟩
def c3World : World := ⟨[c3Facility], [], 2, 1, 0, 0⟩
def c3Sub : Submission := ⟨0, 0, "0xcontrib", some "new.jpg"⟩
def c3Env : Env :=
  ⟨false, demoDist, true, Except.ok c3Vision, Except.ok (), false,
   Except.ok "0xtx", Except.ok (), 0⟩

/-- Claim C3 is violated by the code on the UPDATE path: at this concrete
run the repository update fails (`update_facility` returns `False`, which
the agent ignores), yet the pipeline still attempts the payment, records a
reward, and reports success, leaving the facility row unchanged. -/
theorem update_persist_failure_still_pays :
    fraudOf c3Env c3World c3Sub "ramp" = ⟨false, 25, "facility_update", some 1⟩ ∧
    c3Env.updateOk = false ∧
    (process_upload c3Env c3World c3Sub).1.success = true ∧
    (process_upload c3Env c3World c3Sub).2.facilities = c3World.facilities ∧
    (process_upload c3Env c3World c3Sub).2.paymentCalls = c3World.paymentCalls + 1 ∧
    (process_upload c3Env c3World c3Sub).2.rewards =
      [⟨1, "0xcontrib", 1, 25, some "0xtx", 0⟩] := by
  refine ⟨by decide, rfl, by decide, by decide, by decide, by decide⟩

/-! ### Claim C9 -/

/-- A projection untouched by the row-update function is preserved across
the whole table. -/
theorem update_facility_map_proj {β : Type} (fs : List Facility) (fid : Nat)
    (img : String) (ai : VisionResult) (now : ℤ) (p : Facility → β)
    (hp : ∀ f : Facility,
      p { f with imageUrl := img, aiAnalysis := ai, updatedAt := now } = p f) :
    (update_facility fs fid img ai now).map p = fs.map p := by
  unfold update_facility
  rw [List.map_map]
  apply List.map_congr_left
  intro f _
  simp only [Function.comp]
  by_cases h : f.fid = fid
  · rw [if_pos h]; exact hp f
  · rw [if_neg h]

/-- Claim C9: an `update_facility` mutation changes only the image
reference, the classification payload and the updated-at timestamp: id,
type, position, contributor and created-at are preserved row by row, rows
with a different id are untouched, the targeted row takes exactly the new
image / payload / timestamp, updated-at ≥ created-at is preserved, and the
pipeline's UPDATE path is exactly such a mutation. -/
theorem update_mutates_only_allowed_fields (fs : List Facility) (fid : Nat)
    (img : String) (ai : VisionResult) (now : ℤ)
    (hinv : ∀ f ∈ fs, f.createdAt ≤ f.updatedAt)
    (hnow : ∀ f ∈ fs, f.createdAt ≤ now) :
    ((update_facility fs fid img ai now).map
        (fun f => (f.fid, f.ftype, f.lat, f.lng, f.contributor, f.createdAt)) =
      fs.map (fun f => (f.fid, f.ftype, f.lat, f.lng, f.contributor, f.createdAt))) ∧
    (∀ f ∈ fs, f.fid ≠ fid → f ∈ update_facility fs fid img ai now) ∧
    (∀ f ∈ fs, f.fid = fid →
      { f with imageUrl := img, aiAnalysis := ai, updatedAt := now } ∈
        update_facility fs fid img ai now) ∧
    (∀ g ∈ update_facility fs fid img ai now, g.createdAt ≤ g.updatedAt) ∧
    (∀ (env : Env) (w : World) (s : Submission) (v : VisionResult),
      env.vision = Except.ok v → v.is_valid = true →
      (fraudOf env w s v.facility_type).is_fraud = false →
      (fraudOf env w s v.facility_type).existing_facility_id = some fid →
      env.updateOk = true →
      (process_upload env w s).2.facilities =
        update_facility w.facilities fid (imageUrlOf s) v env.now) := by
  refine ⟨update_facility_map_proj fs fid img ai now _ (fun f => rfl), ?_, ?_, ?_, ?_⟩
  · intro f hf hne
    have h0 := List.mem_map_of_mem
      (fun f : Facility =>
        if f.fid = fid then { f with imageUrl := img, aiAnalysis := ai, updatedAt := now }
        else f) hf
    simpa [update_facility, hne] using h0
  · intro f hf he
    have h0 := List.mem_map_of_mem
      (fun f : Facility =>
        if f.fid = fid then { f with imageUrl := img, aiAnalysis := ai, updatedAt := now }
        else f) hf
    simpa [update_facility, he] using h0
  · intro g hg
    unfold update_facility at hg
    obtain ⟨f, hf, rfl⟩ := List.mem_map.mp hg
    by_cases h : f.fid = fid
    · simpa [h] using hnow f hf
    · simpa [h] using hinv f hf
  · intro env w s v hv hvalid hnf hex hupd
    rw [process_upload_update_eq env w s v fid hv hvalid hnf hex, payAndRecord_facilities]
    unfold persistUpdate
    rw [if_pos hupd]
    rfl

/-- Witness for C9 at a concrete table and update. -/
theorem update_mutates_only_allowed_fields_witness :
    ((update_facility [staleFacility] 2 "new.jpg" demoAnalysis 0).map
        (fun f => (f.fid, f.ftype, f.lat, f.lng, f.contributor, f.createdAt)) =
      [staleFacility].map
        (fun f => (f.fid, f.ftype, f.lat, f.lng, f.contributor, f.createdAt))) ∧
    (∀ f ∈ [staleFacility], f.fid ≠ 2 →
      f ∈ update_facility [staleFacility] 2 "new.jpg" demoAnalysis 0) ∧
    (∀ f ∈ [staleFacility], f.fid = 2 →
      { f with imageUrl := "new.jpg", aiAnalysis := demoAnalysis, updatedAt := 0 } ∈
        update_facility [staleFacility] 2 "new.jpg" demoAnalysis 0) ∧
    (∀ g ∈ update_facility [staleFacility] 2 "new.jpg" demoAnalysis 0,
      g.createdAt ≤ g.updatedAt) ∧
    (∀ (env : Env) (w : World) (s : Submission) (v : VisionResult),
      env.vision = Except.ok v → v.is_valid = true →
      (fraudOf env w s v.facility_type).is_fraud = false →
      (fraudOf env w s v.facility_type).existing_facility_id = some 2 →
      env.updateOk = true →
      (process_upload env w s).2.facilities =
        update_facility w.facilities 2 (imageUrlOf s) v env.now) :=
  update_mutates_only_allowed_fields [staleFacility] 2 "new.jpg" demoAnalysis 0
    (by decide) (by decide)

/-! ### Claim C8 -/

def c8Vision : VisionResult := ⟨true, "ramp", some "good"⟩
def c8World : World := ⟨[freshFacility], [], 5, 5, 0, 0⟩
def c8Sub : Submission := ⟨0, 0, "0xddd", none⟩
def c8Env : Env :=
  ⟨false, demoDist, true, Except.ok c8Vision, Except.ok (), true,
   Except.ok "0xt", Except.ok (), 0⟩
def c8ErrWorld : World := ⟨[], [], 0, 0, 0, 0⟩
def c8ErrEnv : Env :=
  ⟨false, demoDist, true, Except.ok c8Vision,
   Except.error "ConnectionRefusedError: server 10.0.0.5 refused", true,
   Except.ok "0xt", Except.ok (), 0⟩

/-- Claim C8 is false on the code at concrete inputs: a duplicate rejection
carries no existing-facility id even though the fraud check identified one,
and a repository exception's raw message is embedded verbatim in the
user-visible reason. -/
theorem failure_surface_counterexample :
    (process_upload c8Env c8World c8Sub).1.success = false ∧
    (process_upload c8Env c8World c8Sub).1.reason =
      some "Duplicate submission: duplicate_within_15_days" ∧
    (process_upload c8Env c8World c8Sub).1.facility_id = none ∧
    (fraudOf c8Env c8World c8Sub "ramp").existing_facility_id = some 1 ∧
    (process_upload c8ErrEnv c8ErrWorld c8Sub).1.success = false ∧
    (process_upload c8ErrEnv c8ErrWorld c8Sub).1.reason =
      some ("Processing error: " ++ "ConnectionRefusedError: server 10.0.0.5 refused") := by
  refine ⟨by decide, by decide, by decide, by decide, by decide, by decide⟩

theorem payAndRecord_failure_reason (env : Env) (w : World) (s : Submission)
    (v : VisionResult) (fid : Nat) (r : ℤ) :
    (payAndRecord env w s v fid r).1.success = false →
      (payAndRecord env w s v fid r).1.reason ≠ none := by
  unfold payAndRecord
  cases env.recordOk with
  | error msg => intro _; simp
  | ok u => intro h; simp at h

/-- Every failing pipeline result carries a reason string. -/
theorem process_upload_failure_reason (env : Env) (w : World) (s : Submission) :
    (process_upload env w s).1.success = false →
      (process_upload env w s).1.reason ≠ none := by
  unfold process_upload
  split
  · intro _; simp
  · split
    · intro _; simp
    · split
      · intro _; simp
      · split
        · exact payAndRecord_failure_reason _ _ _ _ _ _
        · split
          · intro _; simp
          · exact payAndRecord_failure_reason _ _ _ _ _ _

/-- Claim C8 (amended): every user-visible failure result carries a reason
string; a duplicate rejection's reason embeds the fraud reason code but the
result carries no existing-facility id; and an internal exception message is
surfaced verbatim inside the reason rather than being hidden. -/
theorem failure_surface_amended (env : Env) (w : World) (s : Submission) :
    ((process_upload env w s).1.success = false →
      (process_upload env w s).1.reason ≠ none) ∧
    (∀ v, env.vision = Except.ok v → v.is_valid = true →
      (fraudOf env w s v.facility_type).is_fraud = true →
      (process_upload env w s).1.reason =
        some ("Duplicate submission: " ++ (fraudOf env w s v.facility_type).reason) ∧
      (process_upload env w s).1.facility_id = none) ∧
    (∀ v msg, env.vision = Except.ok v → v.is_valid = true →
      (fraudOf env w s v.facility_type).is_fraud = false →
      (fraudOf env w s v.facility_type).existing_facility_id = none →
      env.saveOk = Except.error msg →
      (process_upload env w s).1.reason = some ("Processing error: " ++ msg)) := by
  refine ⟨process_upload_failure_reason env w s, ?_, ?_⟩
  · intro v hv hvalid hf
    rw [process_upload_fraud_eq env w s v hv hvalid hf]
    exact ⟨rfl, rfl⟩
  · intro v msg hv hvalid hnf hex hsave
    rw [process_upload_save_error_eq env w s v msg hv hvalid hnf hex hsave]

/-- Witness for the amended C8 at concrete inputs. -/
theorem failure_surface_amended_witness :
    ((process_upload c8Env c8World c8Sub).1.reason =
      some ("Duplicate submission: " ++
        (fraudOf c8Env c8World c8Sub c8Vision.facility_type).reason) ∧
     (process_upload c8Env c8World c8Sub).1.facility_id = none) ∧
    (process_upload c8ErrEnv c8ErrWorld c8Sub).1.reason =
      some ("Processing error: " ++ "ConnectionRefusedError: server 10.0.0.5 refused") :=
  ⟨(failure_surface_amended c8Env c8World c8Sub).2.1 c8Vision rfl rfl (by decide),
   (failure_surface_amended c8ErrEnv c8ErrWorld c8Sub).2.2 c8Vision
     "ConnectionRefusedError: server 10.0.0.5 refused" rfl rfl (by decide) (by decide) rfl⟩

/-! ### Claim C6 -/

def botAnalysis : VisionResult := ⟨true, "ramp", some "ok"⟩

/-- Ten facilities created by the same wallet within the trailing hour. -/
def botFacilities : List Facility :=
  (List.range 10).map
    (fun i => ⟨i, "ramp", 1000 + 100 * (i : ℤ), 0, "x.jpg", botAnalysis, "0xbot", 3000, 3000⟩)

def botWorld : World := ⟨botFacilities, [], 100, 0, 0, 0⟩
def botSub : Submission := ⟨0, 0, "0xbot", none⟩
def botVision : VisionResult := ⟨true, "toilet", some "ok"⟩
def botEnv : Env :=
  ⟨false, demoDist, true, Except.ok botVision, Except.ok (), true,
   Except.ok "0xt", Except.ok (), 3600⟩

/-- Claim C6 is false on the code at a concrete input: with 10 creations by
the same identity inside the trailing hour, the next submission is not
denied — the pipeline still invokes classification and completes
successfully — and even the rate-limit skill's denial reason is
"Hourly limit reached (10/hour)", not "hourly_limit_exceeded". -/
theorem rate_limit_not_enforced_counterexample :
    hourlyCount botWorld.facilities "0xbot" botEnv.now = 10 ∧
    (check_user_submission_rate true botWorld.facilities "0xbot" botEnv.now).allowed = false ∧
    (check_user_submission_rate true botWorld.facilities "0xbot" botEnv.now).reason ≠
      "hourly_limit_exceeded" ∧
    (process_upload botEnv botWorld botSub).2.classifyCalls = botWorld.classifyCalls + 1 ∧
    (process_upload botEnv botWorld botSub).1.success = true := by
  refine ⟨by decide, by decide, by decide, by decide, by decide⟩

/-- Claim C6 (amended): the rate-limit skill, when invoked for an identity
with 10 or more facility creations in the trailing hour, denies with reason
"Hourly limit reached (10/hour)" and a 60-minute wait hint — but the upload
pipeline never invokes it: classification is attempted on every submission
regardless of the contributor's hourly creation count. -/
theorem rate_limit_amended (fs : List Facility) (wallet : String) (now : ℤ)
    (h : 10 ≤ hourlyCount fs wallet now) :
    (check_user_submission_rate true fs wallet now).allowed = false ∧
    (check_user_submission_rate true fs wallet now).reason =
      "Hourly limit reached (10/hour)" ∧
    (check_user_submission_rate true fs wallet now).wait_minutes = some 60 ∧
    (∀ (env : Env) (w : World) (s : Submission),
      (process_upload env w s).2.classifyCalls = w.classifyCalls + 1) := by
  refine ⟨?_, ?_, ?_, fun env w s => process_upload_classifyCalls env w s⟩ <;>
    simp [check_user_submission_rate, h]

/-- Witness for the amended C6 at a concrete ten-creation history. -/
theorem rate_limit_amended_witness :
    (check_user_submission_rate true botWorld.facilities "0xbot" 3600).allowed = false ∧
    (check_user_submission_rate true botWorld.facilities "0xbot" 3600).reason =
      "Hourly limit reached (10/hour)" ∧
    (check_user_submission_rate true botWorld.facilities "0xbot" 3600).wait_minutes = some 60 ∧
    (∀ (env : Env) (w : World) (s : Submission),
      (process_upload env w s).2.classifyCalls = w.classifyCalls + 1) :=
  rate_limit_amended botWorld.facilities "0xbot" 3600 (by decide)

/-! ### Claim C5 -/

/-- A rejected, fraud-flagged or UPDATE-verdict run creates no facility row:
the table's identities are unchanged. -/
theorem process_upload_no_create (env : Env) (w : World) (s : Submission)
    (v : VisionResult)
    (hv : env.vision = Except.ok v)
    (hx : (fraudOf env w s v.facility_type).is_fraud = true ∨
          (fraudOf env w s v.facility_type).existing_facility_id ≠ none ∨
          v.is_valid = false) :
    (process_upload env w s).2.facilities.map Facility.fid =
      w.facilities.map Facility.fid := by
  by_cases hvalid : v.is_valid = false
  · rw [process_upload_invalid_eq env w s v hv hvalid]
    rfl
  · have hvalid' : v.is_valid = true := by
      cases hb : v.is_valid
      · exact absurd hb hvalid
      · rfl
    by_cases hf : (fraudOf env w s v.facility_type).is_fraud = true
    · rw [process_upload_fraud_eq env w s v hv hvalid' hf]
      rfl
    · have hf' : (fraudOf env w s v.facility_type).is_fraud = false := by
        cases hb : (fraudOf env w s v.facility_type).is_fraud
        · rfl
        · exact absurd hb hf
      cases hex : (fraudOf env w s v.facility_type).existing_facility_id with
      | some fid =>
        rw [process_upload_update_eq env w s v fid hv hvalid' hf' hex,
            payAndRecord_facilities, persistUpdate_facilities_ids]
        rfl
      | none =>
        rcases hx with h | h | h
        · exact absurd h hf
        · exact absurd hex h
        · exact absurd h hvalid

/-- A successful production-mode run leaves a same-type facility within the
duplicate radius of the submission's position in the resulting table. -/
theorem process_upload_success_candidate (env : Env) (w : World) (s : Submission)
    (v : VisionResult)
    (hv : env.vision = Except.ok v)
    (hmock : env.mockDb = false)
    (hrefl : env.dist s.lat s.lng s.lat s.lng ≤ DUPLICATE_RADIUS_METERS)
    (hsucc : (process_upload env w s).1.success = true) :
    ∃ c ∈ (process_upload env w s).2.facilities,
      c.ftype = v.facility_type ∧
      env.dist s.lat s.lng c.lat c.lng ≤ DUPLICATE_RADIUS_METERS := by
  by_cases hvalid : v.is_valid = true
  · by_cases hf : (fraudOf env w s v.facility_type).is_fraud = true
    · rw [process_upload_fraud_eq env w s v hv hvalid hf] at hsucc
      simp at hsucc
    · have hf' : (fraudOf env w s v.facility_type).is_fraud = false := by
        cases hb : (fraudOf env w s v.facility_type).is_fraud
        · rfl
        · exact absurd hb hf
      cases hex : (fraudOf env w s v.facility_type).existing_facility_id with
      | some fid =>
        have hex' := hex
        unfold fraudOf at hex'
        rw [hmock] at hex'
        cases hidx : env.indexUp with
        | false =>
          rw [hidx] at hex'
          simp [check_fraud] at hex'
        | true =>
          rw [hidx] at hex'
          obtain ⟨f0, hf0, hfid, htype, hdist0⟩ := check_fraud_db_existing hex'
          rw [process_upload_update_eq env w s v fid hv hvalid hf' hex,
              payAndRecord_facilities]
          unfold persistUpdate
          split
          · obtain ⟨g, hg, _, hgt, hglat, hglng, _, _⟩ :=
              update_facility_exists_like (show f0 ∈ (classifyStep w).facilities from hf0)
                fid (imageUrlOf s) v env.now
            refine ⟨g, hg, hgt.trans htype, ?_⟩
            rw [hglat, hglng]
            exact hdist0
          · exact ⟨f0, hf0, htype, hdist0⟩
      | none =>
        cases hsave : env.saveOk with
        | error msg =>
          rw [process_upload_save_error_eq env w s v msg hv hvalid hf' hex hsave] at hsucc
          simp at hsucc
        | ok u =>
          rw [process_upload_create_eq env w s v hv hvalid hf' hex hsave,
              payAndRecord_facilities]
          refine ⟨newFacility w.nextFacilityId v.facility_type s.lat s.lng
            (imageUrlOf s) v s.wallet env.now,
            List.mem_append_right _ (List.mem_singleton.mpr rfl), rfl, hrefl⟩
  · have hvf : v.is_valid = false := by
      cases hb : v.is_valid
      · rfl
      · exact absurd hb hvalid
    rw [process_upload_invalid_eq env w s v hv hvf] at hsucc
    simp at hsucc

/-- Claim C5: replay idempotence — running the pipeline a second time on the
exact same submission after a first successful production-mode run yields an
UPDATE or DUPLICATE verdict, and the second run creates no new facility row
(the table's identities are unchanged). -/
theorem replay_never_creates_second_new (env env2 : Env) (w : World)
    (s : Submission) (v : VisionResult)
    (hv : env.vision = Except.ok v)
    (hmock : env.mockDb = false)
    (h2v : env2.vision = Except.ok v)
    (h2mock : env2.mockDb = false) (h2idx : env2.indexUp = true)
    (hdist : env2.dist = env.dist)
    (hrefl : env.dist s.lat s.lng s.lat s.lng ≤ DUPLICATE_RADIUS_METERS)
    (hsucc : (process_upload env w s).1.success = true) :
    ((fraudOf env2 (process_upload env w s).2 s v.facility_type).reason =
        "duplicate_within_15_days" ∨
     (fraudOf env2 (process_upload env w s).2 s v.facility_type).reason =
        "facility_update") ∧
    (process_upload env2 (process_upload env w s).2 s).2.facilities.map Facility.fid =
      (process_upload env w s).2.facilities.map Facility.fid := by
  obtain ⟨c, hc, hct, hcd⟩ := process_upload_success_candidate env w s v hv hmock hrefl hsucc
  have hcd2 : env2.dist s.lat s.lng c.lat c.lng ≤ DUPLICATE_RADIUS_METERS := by
    rw [hdist]; exact hcd
  obtain ⟨g, hg⟩ := findNearest_isSome hc hct hcd2
  have hfr : fraudOf env2 (process_upload env w s).2 s v.facility_type =
      verdictFor env2.now
        (findNearest env2.dist (process_upload env w s).2.facilities s.lat s.lng
          v.facility_type) := by
    unfold fraudOf
    rw [h2mock, h2idx]
    rfl
  constructor
  · rw [hfr, hg]
    exact verdictFor_some_reason env2.now g
  · apply process_upload_no_create env2 (process_upload env w s).2 s v h2v
    refine Or.inr (Or.inl ?_)
    rw [hfr, hg, verdictFor_some_existing]
    simp

def c5Vision : VisionResult := ⟨true, "ramp", some "fine"⟩
def c5Sub : Submission := ⟨0, 0, "0xeee", some "u.jpg"⟩
def c5World : World := ⟨[], [], 0, 0, 0, 0⟩
def c5Env : Env :=
  ⟨false, demoDist, true, Except.ok c5Vision, Except.ok (), true,
   Except.ok "0xt1", Except.ok (), 86400⟩
def c5Env2 : Env :=
  ⟨false, demoDist, true, Except.ok c5Vision, Except.ok (), true,
   Except.ok "0xt2", Except.ok (), 172800⟩

/-- Witness for C5: a concrete first run creates the facility; the replay's
verdict is DUPLICATE or UPDATE and adds no facility row. -/
theorem replay_never_creates_second_new_witness :
    ((fraudOf c5Env2 (process_upload c5Env c5World c5Sub).2 c5Sub
        c5Vision.facility_type).reason = "duplicate_within_15_days" ∨
     (fraudOf c5Env2 (process_upload c5Env c5World c5Sub).2 c5Sub
        c5Vision.facility_type).reason = "facility_update") ∧
    (process_upload c5Env2 (process_upload c5Env c5World c5Sub).2 c5Sub).2.facilities.map
        Facility.fid =
      (process_upload c5Env c5World c5Sub).2.facilities.map Facility.fid :=
  replay_never_creates_second_new c5Env c5Env2 c5World c5Sub c5Vision
    rfl rfl rfl rfl rfl rfl (by decide) (by decide)

end Help2Earn
